import Mathlib

/-!
Verification of the leaf-level constraint family of a Merkle-Patricia-Trie
circuit (storage-leaf key gate, storage-leaf value gate, drifted-leaf gate).

Each circuit gate is a set of polynomial identities over a prime field,
evaluated on the advice cells of a fixed row layout.  We embed every gate as a
predicate over a structure whose fields are exactly the advice cells the gate
reads (arbitrary field `F`); a witness is accepted when every constraint
evaluates to zero and every selector-scaled table lookup is satisfied.
The vector of powers of the randomness (`r_table` in the source) has entry
`i` equal to `r ^ (i + 1)`.
-/

namespace MPT

variable {F : Type} [Field F]

/-- Running randomized linear combination (spec: RLC accumulator):
`rlcSeq r m [b0, b1, b2, ...] = b0 * m + b1 * (m * r) + b2 * (m * r ^ 2) + ...`,
the sum of the bytes times the running multiplier times successive powers
of `r`. -/
def rlcSeq (r : F) : F → List F → F
  | _, [] => 0
  | m, b :: bs => b * m + rlcSeq r (m * r) bs

theorem rlcSeq_append (r : F) (m : F) (xs ys : List F) :
    rlcSeq r m (xs ++ ys) = rlcSeq r m xs + rlcSeq r (m * r ^ xs.length) ys := by
  induction xs generalizing m with
  | nil => simp [rlcSeq]
  | cons x xs ih =>
    simp only [List.cons_append, rlcSeq, List.append_eq, ih, List.length_cons, pow_succ]
    ring_nf

theorem rlcSeq_rangeMap (r : F) (g : ℕ → F) (n : ℕ) (m : F) :
    rlcSeq r m ((List.range n).map g) = ∑ i ∈ Finset.range n, g i * (m * r ^ i) := by
  induction n generalizing m g with
  | zero => simp [rlcSeq]
  | succ n ih =>
    rw [List.range_succ_eq_map, List.map_cons, List.map_map]
    show g 0 * m + rlcSeq r (m * r) ((List.range n).map (g ∘ Nat.succ)) = _
    rw [ih (g ∘ Nat.succ) (m * r), Finset.sum_range_succ']
    simp only [Function.comp_apply]
    rw [add_comm]
    congr 1
    · exact Finset.sum_congr rfl fun i _ => by rw [pow_succ]; ring
    · rw [pow_zero]; ring

/-! ## Storage leaf key gate (`mpt/src/storage_leaf/leaf_key.rs`)

One row of the storage-leaf key gate.  Fields are the advice cells read by
`LeafKeyChip::configure` (the same logical layout is used for the `S` and the
`C` instance of the chip; only the physical rotations differ, so a single
structure covers both):
`qEnable` is the gate selector, `flag1`/`flag2` the shape selector
(`accs.s_mod_node_rlc` / `accs.c_mod_node_rlc`), `sRlp1`/`sRlp2`/`sBytes`/
`cRlp1`/`cRlp2` the byte cells of the row, `accS` the stored leaf-RLC cell
(`accs.acc_s.rlc`), `keyRlc` the stored key-RLC cell (`accs.key.rlc`),
`keyRlcAccStart`/`keyMultStart` the key accumulator inherited from the branch
above (`accs.key.rlc/mult` at the branch rotation), `sel1`/`sel2` the odd/even
nibble selectors from the branch init row, `isBranchPlaceholder` the placeholder
flag of the parent branch, `isLeafInFirstLevel` the cell marking that the leaf
is in the first storage level (`is_account_leaf_in_added_branch` at the account
rotation) and `nibblesCount` the nibble counter of the branch init row. -/
structure LeafKeyRow (F : Type) where
  qEnable : F
  flag1 : F
  flag2 : F
  sRlp1 : F
  sRlp2 : F
  sBytes : ℕ → F
  cRlp1 : F
  cRlp2 : F
  accS : F
  keyRlc : F
  keyRlcAccStart : F
  keyMultStart : F
  sel1 : F
  sel2 : F
  isBranchPlaceholder : F
  isLeafInFirstLevel : F
  nibblesCount : F

/-- `last_level = flag1 * flag2`. -/
def lastLevel (w : LeafKeyRow F) : F := w.flag1 * w.flag2

/-- `is_long = flag1 * (1 - flag2)`. -/
def isLong (w : LeafKeyRow F) : F := w.flag1 * (1 - w.flag2)

/-- `is_short = (1 - flag1) * flag2`. -/
def isShort (w : LeafKeyRow F) : F := (1 - w.flag1) * w.flag2

/-- `one_nibble = (1 - flag1) * (1 - flag2)`. -/
def oneNibble (w : LeafKeyRow F) : F := (1 - w.flag1) * (1 - w.flag2)

/-- Modelled from the spec: `get_bool_constraint` (`helpers.rs`, not under
`src/`) produces the constraint forcing a cell to be boolean on enabled rows:
`q * b * (1 - b)`. -/
def boolConstraint (q b : F) : F := q * b * (1 - b)

/-- Constraints of the gate `Storage leaf RLC` that concern the shape flags
(`leaf_key.rs` lines 68-94): the RLP markers for the `long` and `last_level`
variants and booleanity of `flag1` and `flag2`. -/
def leafKeyFlagGate (w : LeafKeyRow F) : Prop :=
  w.qEnable * isLong w * (w.sRlp1 - 248) = 0 ∧
  w.qEnable * lastLevel w * (w.sRlp2 - 32) = 0 ∧
  boolConstraint w.qEnable w.flag1 = 0 ∧
  boolConstraint w.qEnable w.flag2 = 0

/-- Claim C8: on every row where the storage-leaf key gate is enabled, `flag1`
and `flag2` are boolean, the four shape indicators sum to one, and exactly one
of the four variants (`last_level`, `is_long`, `is_short`, `one_nibble`) is
active (equal to 1) while the other three are 0. -/
theorem leafKeyVariantExclusive (w : LeafKeyRow F)
    (hg : leafKeyFlagGate w) (hq : w.qEnable = 1) :
    (w.flag1 = 0 ∨ w.flag1 = 1) ∧ (w.flag2 = 0 ∨ w.flag2 = 1) ∧
    lastLevel w + isLong w + isShort w + oneNibble w = 1 ∧
    ((lastLevel w = 1 ∧ isLong w = 0 ∧ isShort w = 0 ∧ oneNibble w = 0) ∨
     (lastLevel w = 0 ∧ isLong w = 1 ∧ isShort w = 0 ∧ oneNibble w = 0) ∨
     (lastLevel w = 0 ∧ isLong w = 0 ∧ isShort w = 1 ∧ oneNibble w = 0) ∨
     (lastLevel w = 0 ∧ isLong w = 0 ∧ isShort w = 0 ∧ oneNibble w = 1)) := by
  obtain ⟨-, -, h1, h2⟩ := hg
  rw [boolConstraint, hq, one_mul] at h1 h2
  have hf1 : w.flag1 = 0 ∨ w.flag1 = 1 := by
    rcases mul_eq_zero.mp h1 with h | h
    · exact Or.inl h
    · exact Or.inr (by linear_combination -h)
  have hf2 : w.flag2 = 0 ∨ w.flag2 = 1 := by
    rcases mul_eq_zero.mp h2 with h | h
    · exact Or.inl h
    · exact Or.inr (by linear_combination -h)
  refine ⟨hf1, hf2, by unfold lastLevel isLong isShort oneNibble; ring, ?_⟩
  rcases hf1 with h1 | h1 <;> rcases hf2 with h2 | h2 <;>
    simp [lastLevel, isLong, isShort, oneNibble, h1, h2]

/-- Claim C9: a row tagged `long` (`flag1 = 1`, `flag2 = 0`) has its first RLP
byte equal to 248, and a row tagged `last_level` (`flag1 = 1`, `flag2 = 1`) has
its second RLP byte equal to 32, in every accepted witness with the gate
enabled. -/
theorem leafKeyRlpMarkers (w : LeafKeyRow F)
    (hg : leafKeyFlagGate w) (hq : w.qEnable = 1) :
    (w.flag1 = 1 → w.flag2 = 0 → w.sRlp1 = 248) ∧
    (w.flag1 = 1 → w.flag2 = 1 → w.sRlp2 = 32) := by
  obtain ⟨h1, h2, -, -⟩ := hg
  constructor
  · intro hf1 hf2
    rw [hq, isLong, hf1, hf2, one_mul] at h1
    have : w.sRlp1 - 248 = 0 := by linear_combination h1
    linear_combination this
  · intro hf1 hf2
    rw [hq, lastLevel, hf1, hf2, one_mul] at h2
    have : w.sRlp2 - 32 = 0 := by linear_combination h2
    linear_combination this

/-! ### Nibble count (C1) -/

/-- Nibble contribution of a `long` leaf (`leaf_key.rs` lines 356-357):
`(s_bytes0 - 128 - 1) * 2 * sel2 + ((s_bytes0 - 128) * 2 - 1) * sel1`. -/
def leafNibblesLong (w : LeafKeyRow F) : F :=
  (w.sBytes 0 - 128 - 1) * (1 + 1) * w.sel2 + ((w.sBytes 0 - 128) * (1 + 1) - 1) * w.sel1

/-- Nibble contribution of a `short` leaf (`leaf_key.rs` lines 358-359):
`(s_rlp2 - 128 - 1) * 2 * sel2 + ((s_rlp2 - 128) * 2 - 1) * sel1`. -/
def leafNibblesShort (w : LeafKeyRow F) : F :=
  (w.sRlp2 - 128 - 1) * (1 + 1) * w.sel2 + ((w.sRlp2 - 128) * (1 + 1) - 1) * w.sel1

/-- Combined nibble contribution of the leaf (`leaf_key.rs` lines 360-364):
`last_level` contributes 0, `one_nibble` contributes 1. -/
def leafNibbles (w : LeafKeyRow F) : F :=
  leafNibblesLong w * isLong w + leafNibblesShort w * isShort w
    + 0 * lastLevel w + 1 * oneNibble w

/-- The constraint `Total number of storage address nibbles is 64 (not first
level, not branch placeholder)` (`leaf_key.rs` lines 371-379). -/
def leafKeyNibbleGate (w : LeafKeyRow F) : Prop :=
  w.qEnable * (1 - w.isBranchPlaceholder) * (1 - w.isLeafInFirstLevel)
    * (w.nibblesCount + leafNibbles w - 64) = 0

/-- Claim C1: on a storage-leaf key row that is not in the first storage level
and whose parent branch is not a placeholder, the ancestor nibble count plus
the leaf's own nibble contribution equals exactly 64; the contribution is
`2 * (length_byte - 128) - 2` under `sel2` and `2 * (length_byte - 128) - 1`
under `sel1` (length byte `s_bytes0` for `long`, `s_rlp2` for `short`),
0 for `last_level` and 1 for `one_nibble`. -/
theorem leafKeyNibbleTotal (w : LeafKeyRow F)
    (hg : leafKeyNibbleGate w) (hq : w.qEnable = 1)
    (hpl : w.isBranchPlaceholder = 0) (hfl : w.isLeafInFirstLevel = 0) :
    w.nibblesCount + leafNibbles w = 64 ∧
    (w.flag1 = 1 → w.flag2 = 0 → w.sel1 = 0 → w.sel2 = 1 →
      w.nibblesCount + (2 * (w.sBytes 0 - 128) - 2) = 64) ∧
    (w.flag1 = 1 → w.flag2 = 0 → w.sel1 = 1 → w.sel2 = 0 →
      w.nibblesCount + (2 * (w.sBytes 0 - 128) - 1) = 64) ∧
    (w.flag1 = 0 → w.flag2 = 1 → w.sel1 = 0 → w.sel2 = 1 →
      w.nibblesCount + (2 * (w.sRlp2 - 128) - 2) = 64) ∧
    (w.flag1 = 0 → w.flag2 = 1 → w.sel1 = 1 → w.sel2 = 0 →
      w.nibblesCount + (2 * (w.sRlp2 - 128) - 1) = 64) ∧
    (w.flag1 = 1 → w.flag2 = 1 → w.nibblesCount = 64) ∧
    (w.flag1 = 0 → w.flag2 = 0 → w.nibblesCount + 1 = 64) := by
  rw [leafKeyNibbleGate, hq, hpl, hfl] at hg
  have h64 : w.nibblesCount + leafNibbles w = 64 := by linear_combination hg
  refine ⟨h64, ?_, ?_, ?_, ?_, ?_, ?_⟩ <;> intro hf1 hf2
  · intro hs1 hs2
    have h := h64
    simp only [leafNibbles, leafNibblesLong, leafNibblesShort, isLong, isShort,
      lastLevel, oneNibble, hf1, hf2, hs1, hs2] at h
    linear_combination h
  · intro hs1 hs2
    have h := h64
    simp only [leafNibbles, leafNibblesLong, leafNibblesShort, isLong, isShort,
      lastLevel, oneNibble, hf1, hf2, hs1, hs2] at h
    linear_combination h
  · intro hs1 hs2
    have h := h64
    simp only [leafNibbles, leafNibblesLong, leafNibblesShort, isLong, isShort,
      lastLevel, oneNibble, hf1, hf2, hs1, hs2] at h
    linear_combination h
  · intro hs1 hs2
    have h := h64
    simp only [leafNibbles, leafNibblesLong, leafNibblesShort, isLong, isShort,
      lastLevel, oneNibble, hf1, hf2, hs1, hs2] at h
    linear_combination h
  · have h := h64
    simp only [leafNibbles, leafNibblesLong, leafNibblesShort, isLong, isShort,
      lastLevel, oneNibble, hf1, hf2] at h
    linear_combination h
  · have h := h64
    simp only [leafNibbles, leafNibblesLong, leafNibblesShort, isLong, isShort,
      lastLevel, oneNibble, hf1, hf2] at h
    linear_combination h

/-! ### Key RLC (C2) -/

/-- The running key multiplier (`leaf_key.rs` lines 238-239 and 288-289):
`key_mult_start * r * sel1 + key_mult_start * sel2`. -/
def keyMultLeaf (w : LeafKeyRow F) (r : F) : F :=
  w.keyMultStart * r * w.sel1 + w.keyMultStart * w.sel2

/-- `key_rlc_acc_short` (`leaf_key.rs` lines 236-264): the key starts at
`s_main.bytes[0]`; `r_table[i] = r ^ (i + 1)`. -/
def keyRlcAccShort (w : LeafKeyRow F) (r : F) : F :=
  w.keyRlcAccStart + (w.sBytes 0 - 48) * w.keyMultStart * w.sel1
    + w.sBytes 1 * keyMultLeaf w r
    + (∑ i ∈ Finset.range 30, w.sBytes (i + 2) * keyMultLeaf w r * r ^ (i + 1))
    + w.cRlp1 * keyMultLeaf w r * r ^ 31

/-- `key_rlc_acc_long` (`leaf_key.rs` lines 285-316): the key starts at
`s_main.bytes[1]`. -/
def keyRlcAccLong (w : LeafKeyRow F) (r : F) : F :=
  w.keyRlcAccStart + (w.sBytes 1 - 48) * w.keyMultStart * w.sel1
    + w.sBytes 2 * keyMultLeaf w r
    + (∑ i ∈ Finset.range 29, w.sBytes (i + 3) * keyMultLeaf w r * r ^ (i + 1))
    + w.cRlp1 * keyMultLeaf w r * r ^ 30
    + w.cRlp2 * keyMultLeaf w r * r ^ 31

/-- Constraints of the gate `Storage leaf key RLC & nibbles count` that concern
the key RLC (`leaf_key.rs` lines 232-341): the padding-byte checks
`Leaf key acc s_advice0` / `s_advice1` and the `Key RLC short` / `Key RLC long`
/ `Key RLC last level or one nibble` checks. -/
def leafKeyRlcKeyGate (w : LeafKeyRow F) (r : F) : Prop :=
  w.qEnable * (w.sBytes 0 - 32) * w.sel2 * (1 - w.isBranchPlaceholder)
      * (1 - w.isLeafInFirstLevel) * isShort w = 0 ∧
  w.qEnable * (keyRlcAccShort w r - w.keyRlc) * (1 - w.isBranchPlaceholder)
      * (1 - w.isLeafInFirstLevel) * isShort w = 0 ∧
  w.qEnable * (w.sBytes 1 - 32) * w.sel2 * (1 - w.isBranchPlaceholder)
      * (1 - w.isLeafInFirstLevel) * isLong w = 0 ∧
  w.qEnable * (keyRlcAccLong w r - w.keyRlc) * (1 - w.isBranchPlaceholder)
      * (1 - w.isLeafInFirstLevel) * isLong w = 0 ∧
  w.qEnable * (w.keyRlcAccStart - w.keyRlc) * (1 - w.isBranchPlaceholder)
      * (1 - w.isLeafInFirstLevel) * (lastLevel w + oneNibble w) = 0

/-- The key bytes of a `short` leaf in row order: `s_main.bytes[1..32]`
followed by `c_main.rlp1`. -/
def keyTailShort (w : LeafKeyRow F) : List F :=
  ((List.range 31).map fun i => w.sBytes (i + 1)) ++ [w.cRlp1]

/-- The key bytes of a `long` leaf in row order: `s_main.bytes[2..32]`
followed by `c_main.rlp1` and `c_main.rlp2`. -/
def keyTailLong (w : LeafKeyRow F) : List F :=
  ((List.range 30).map fun i => w.sBytes (i + 2)) ++ [w.cRlp1, w.cRlp2]

theorem keyRlcAccShort_eq_rlcSeq (w : LeafKeyRow F) (r : F) :
    keyRlcAccShort w r
      = w.keyRlcAccStart + (w.sBytes 0 - 48) * w.keyMultStart * w.sel1
        + rlcSeq r (keyMultLeaf w r) (keyTailShort w) := by
  rw [keyTailShort, rlcSeq_append, rlcSeq_rangeMap, List.length_map, List.length_range]
  rw [Finset.sum_range_succ']
  simp only [rlcSeq]
  rw [keyRlcAccShort]
  rw [Finset.sum_congr rfl fun (i : ℕ) _ =>
    show w.sBytes (i + 1 + 1) * (keyMultLeaf w r * r ^ (i + 1))
        = w.sBytes (i + 2) * keyMultLeaf w r * r ^ (i + 1) by ring]
  ring

theorem keyRlcAccLong_eq_rlcSeq (w : LeafKeyRow F) (r : F) :
    keyRlcAccLong w r
      = w.keyRlcAccStart + (w.sBytes 1 - 48) * w.keyMultStart * w.sel1
        + rlcSeq r (keyMultLeaf w r) (keyTailLong w) := by
  rw [keyTailLong, rlcSeq_append, rlcSeq_rangeMap, List.length_map, List.length_range]
  rw [Finset.sum_range_succ']
  simp only [rlcSeq]
  rw [keyRlcAccLong]
  rw [Finset.sum_congr rfl fun (i : ℕ) _ =>
    show w.sBytes (i + 1 + 2) * (keyMultLeaf w r * r ^ (i + 1))
        = w.sBytes (i + 3) * keyMultLeaf w r * r ^ (i + 1) by ring]
  ring

/-- Claim C2: on an accepted short- or long-variant storage-leaf key row that
is not in the first storage level and not under a placeholder branch, the
stored key RLC equals `key_rlc_acc_start + (first_key_byte - 48) * mult_start *
sel1` plus each remaining key byte times the running multiplier times
successive powers of `r`, with the key read at byte offset 0 (`short`) or 1
(`long`); and under the even selector `sel2` the first key byte is the padding
byte 32. -/
theorem leafKeyRlcCorrect (w : LeafKeyRow F) (r : F)
    (hg : leafKeyRlcKeyGate w r) (hq : w.qEnable = 1)
    (hpl : w.isBranchPlaceholder = 0) (hfl : w.isLeafInFirstLevel = 0) :
    (w.flag1 = 0 → w.flag2 = 1 →
      w.keyRlc = w.keyRlcAccStart + (w.sBytes 0 - 48) * w.keyMultStart * w.sel1
          + rlcSeq r (keyMultLeaf w r) (keyTailShort w)
        ∧ (w.sel2 = 1 → w.sBytes 0 = 32)) ∧
    (w.flag1 = 1 → w.flag2 = 0 →
      w.keyRlc = w.keyRlcAccStart + (w.sBytes 1 - 48) * w.keyMultStart * w.sel1
          + rlcSeq r (keyMultLeaf w r) (keyTailLong w)
        ∧ (w.sel2 = 1 → w.sBytes 1 = 32)) := by
  obtain ⟨h0, hs, h1, hl, -⟩ := hg
  constructor
  · intro hf1 hf2
    rw [hq, hpl, hfl, isShort, hf1, hf2] at h0 hs
    constructor
    · rw [← keyRlcAccShort_eq_rlcSeq]
      linear_combination -hs
    · intro hsel2
      rw [hsel2] at h0
      linear_combination h0
  · intro hf1 hf2
    rw [hq, hpl, hfl, isLong, hf1, hf2] at h1 hl
    constructor
    · rw [← keyRlcAccLong_eq_rlcSeq]
      linear_combination -hl
    · intro hsel2
      rw [hsel2] at h1
      linear_combination h1

/-! ### Byte range lookups (C10) -/

/-- Modelled from the spec: the Range256 fixed-table lookup asserts a value
lies in `[0, 256)`; `range_lookups` (`helpers.rs`, not under `src/`) issues one
such lookup per column, scaled by the row selector, and the table contains the
all-zero row, so a disabled row passes vacuously. -/
def rangeLookup256 (q v : F) : Prop :=
  q = 0 ∨ ∃ n ∈ Finset.range 256, v = (n : F)

/-- The cells covered by the two `range_lookups` calls of the storage-leaf key
gate (`leaf_key.rs` lines 751-764): `s_main.bytes[0..32]`, `s_main.rlp1`,
`s_main.rlp2`, `c_main.rlp1`, `c_main.rlp2`. -/
def leafKeyRangeCells (w : LeafKeyRow F) : List F :=
  (List.range 32).map w.sBytes ++ [w.sRlp1, w.sRlp2, w.cRlp1, w.cRlp2]

/-- The Range256 lookups issued on the storage-leaf key row. -/
def leafKeyRangeGate (w : LeafKeyRow F) : Prop :=
  ∀ v ∈ leafKeyRangeCells w, rangeLookup256 w.qEnable v

/-- Claim C10: on every row where the storage-leaf key gate is enabled, each of
the byte cells `s_main.bytes[0..32]`, `s_main.rlp1`, `s_main.rlp2`,
`c_main.rlp1` and `c_main.rlp2` lies in `[0, 256)` in an accepted witness. -/
theorem leafKeyByteRange (w : LeafKeyRow F)
    (hg : leafKeyRangeGate w) (hq : w.qEnable = 1) :
    ∀ v ∈ leafKeyRangeCells w, ∃ n ∈ Finset.range 256, v = (n : F) := by
  intro v hv
  rcases hg v hv with h | h
  · rw [hq] at h
    exact absurd h one_ne_zero
  · exact h

/-! ### Concrete leaf-key rows used as witnesses -/

instance : Fact (Nat.Prime 1009) := ⟨by norm_num⟩

/-- A concrete prime field used to evaluate the embedded gates on explicit
rows. -/
abbrev Fp : Type := ZMod 1009

/-- A `short` leaf key row (spec scenario 6): RLP prefix `226 160`, 32-byte
key, even number of remaining nibbles (`sel2 = 1`), ancestor nibble count 2. -/
def witC1 : LeafKeyRow Fp :=
  { qEnable := 1, flag1 := 0, flag2 := 1, sRlp1 := 226, sRlp2 := 160
    sBytes := fun _ => 0, cRlp1 := 0, cRlp2 := 0, accS := 0, keyRlc := 0
    keyRlcAccStart := 0, keyMultStart := 1, sel1 := 0, sel2 := 1
    isBranchPlaceholder := 0, isLeafInFirstLevel := 0, nibblesCount := 2 }

theorem leafKeyNibbleTotalWitness :
    leafKeyNibbleGate witC1 ∧ witC1.nibblesCount + leafNibbles witC1 = 64 :=
  have hg : leafKeyNibbleGate witC1 := by unfold leafKeyNibbleGate; decide
  ⟨hg, (leafKeyNibbleTotal witC1 hg rfl rfl rfl).1⟩

/-- A `short` leaf key row with the padding byte 32 in `s_main.bytes[0]` and
all remaining key bytes zero; the stored key RLC cell holds the matching
value 0. -/
def witC2 : LeafKeyRow Fp :=
  { qEnable := 1, flag1 := 0, flag2 := 1, sRlp1 := 226, sRlp2 := 160
    sBytes := fun i => if i = 0 then 32 else 0, cRlp1 := 0, cRlp2 := 0
    accS := 0, keyRlc := 0, keyRlcAccStart := 0, keyMultStart := 1
    sel1 := 0, sel2 := 1, isBranchPlaceholder := 0, isLeafInFirstLevel := 0
    nibblesCount := 2 }

theorem leafKeyRlcCorrectWitness :
    leafKeyRlcKeyGate witC2 2 ∧
    (witC2.keyRlc
        = witC2.keyRlcAccStart + (witC2.sBytes 0 - 48) * witC2.keyMultStart * witC2.sel1
          + rlcSeq 2 (keyMultLeaf witC2 2) (keyTailShort witC2)
      ∧ (witC2.sel2 = 1 → witC2.sBytes 0 = 32)) :=
  have hg : leafKeyRlcKeyGate witC2 2 := by unfold leafKeyRlcKeyGate; decide
  ⟨hg, (leafKeyRlcCorrect witC2 2 hg rfl rfl rfl).1 rfl rfl⟩

/-- A `short` leaf key row used for the variant-exclusivity witness. -/
def witC8 : LeafKeyRow Fp :=
  { qEnable := 1, flag1 := 0, flag2 := 1, sRlp1 := 226, sRlp2 := 160
    sBytes := fun _ => 0, cRlp1 := 0, cRlp2 := 0, accS := 0, keyRlc := 0
    keyRlcAccStart := 0, keyMultStart := 1, sel1 := 0, sel2 := 1
    isBranchPlaceholder := 0, isLeafInFirstLevel := 0, nibblesCount := 2 }

theorem leafKeyVariantExclusiveWitness :
    leafKeyFlagGate witC8 ∧
    (lastLevel witC8 + isLong witC8 + isShort witC8 + oneNibble witC8 = 1 ∧
      (witC8.flag1 = 0 ∨ witC8.flag1 = 1)) :=
  have hg : leafKeyFlagGate witC8 := by unfold leafKeyFlagGate boolConstraint; decide
  ⟨hg, (leafKeyVariantExclusive witC8 hg rfl).2.2.1,
    (leafKeyVariantExclusive witC8 hg rfl).1⟩

/-- A `long` leaf key row (spec scenario 7): first RLP byte 248. -/
def witC9 : LeafKeyRow Fp :=
  { qEnable := 1, flag1 := 1, flag2 := 0, sRlp1 := 248, sRlp2 := 67
    sBytes := fun _ => 0, cRlp1 := 0, cRlp2 := 0, accS := 0, keyRlc := 0
    keyRlcAccStart := 0, keyMultStart := 1, sel1 := 0, sel2 := 1
    isBranchPlaceholder := 0, isLeafInFirstLevel := 0, nibblesCount := 0 }

theorem leafKeyRlpMarkersWitness :
    leafKeyFlagGate witC9 ∧ witC9.sRlp1 = 248 :=
  have hg : leafKeyFlagGate witC9 := by unfold leafKeyFlagGate boolConstraint; decide
  ⟨hg, (leafKeyRlpMarkers witC9 hg rfl).1 rfl rfl⟩

/-- A leaf key row whose byte cells are all zero, for the range-lookup
witness. -/
def witC10 : LeafKeyRow Fp :=
  { qEnable := 1, flag1 := 0, flag2 := 1, sRlp1 := 0, sRlp2 := 0
    sBytes := fun _ => 0, cRlp1 := 0, cRlp2 := 0, accS := 0, keyRlc := 0
    keyRlcAccStart := 0, keyMultStart := 1, sel1 := 0, sel2 := 1
    isBranchPlaceholder := 0, isLeafInFirstLevel := 0, nibblesCount := 0 }

theorem leafKeyByteRangeWitness :
    leafKeyRangeGate witC10 ∧
    ∀ v ∈ leafKeyRangeCells witC10, ∃ n ∈ Finset.range 256, v = (n : Fp) :=
  have hg : leafKeyRangeGate witC10 := by
    intro v hv
    have hv0 : v = 0 := by
      simp only [leafKeyRangeCells, witC10, List.mem_append, List.mem_map,
        List.mem_range, List.mem_cons, List.not_mem_nil, or_false] at hv
      rcases hv with ⟨a, -, h⟩ | h | h | h | h
      all_goals simp_all
    subst hv0
    exact Or.inr ⟨0, by simp, by simp⟩
  ⟨hg, leafKeyByteRange witC10 hg rfl⟩

/-! ## Storage leaf value gate
(`zkevm-circuits/src/mpt_circuit/storage_leaf/leaf_value.rs`) -/

/-- Modelled from the spec: a selector-scaled lookup into the Keccak table.
The table asserts triples `(input_rlc, input_len, output_rlc)`; its enable
column is boolean and it contains the all-zero row, so a lookup whose selector
product is `c` is satisfied exactly when `c = 0` (disabled) or `c = 1` and the
triple is a valid hash triple. -/
def condKeccak (c : F) (t : F × F × F) (T : Set (F × F × F)) : Prop :=
  c = 0 ∨ (c = 1 ∧ t ∈ T)

/-- One `LEAF_VALUE` row together with the cells of other rows read by
`LeafValueConfig::configure` (again one structure covers the `S` and the `C`
instance): `sRlp1`/`sRlp2`/`sBytes` are the byte cells of the value row;
`isLong`/`isShort` the value-shape flags of the value row; `flag1`/`flag2` the
key-shape flags of the leaf-key row one row above; `keyRlp1`/`keyRlp2`/
`keyBytes0` the cells `s_main.rlp1`/`s_main.rlp2`/`s_main.bytes[0]` of the
key row; `notFirstLevel` the first-level marker; `isModifiedNodeEmpty` the
`denoter.sel` cell at the parent branch; `isPlaceholderWithoutBranch` the
`denoter.sel` cell of the current row; `isAccountLeafAbove` /
`isAccountLeafAboveBranch` the `is_account_leaf_in_added_branch` cells at the
account rotations; `modNodeHashRlcCur` the modified-child RLC recorded in the
parent branch; `branchIsPlaceholder` the placeholder flag of the parent branch
init row; `notHashed` the cell `accs.acc_c.rlc` of the key row marking a leaf
shorter than 32 bytes; `accSRlc` the stored full leaf RLC; `leafLen` the leaf
byte length computed by the helper `get_leaf_len` from the key row (helper
outside `src/`); `storageRootBytes` the 32 storage-root byte cells of the
account leaf row above. -/
structure LeafValueRow (F : Type) where
  sRlp1 : F
  sRlp2 : F
  sBytes : ℕ → F
  isLong : F
  isShort : F
  flag1 : F
  flag2 : F
  keyRlp1 : F
  keyRlp2 : F
  keyBytes0 : F
  notFirstLevel : F
  isModifiedNodeEmpty : F
  isPlaceholderWithoutBranch : F
  isAccountLeafAbove : F
  isAccountLeafAboveBranch : F
  modNodeHashRlcCur : F
  branchIsPlaceholder : F
  notHashed : F
  accSRlc : F
  leafLen : F
  storageRootBytes : ℕ → F

/-- `has_no_nibble = flag1 * flag2` (key row in the last level). -/
def hasNoNibble (w : LeafValueRow F) : F := w.flag1 * w.flag2

/-- `has_one_nibble = (1 - flag1) * (1 - flag2)`. -/
def hasOneNibble (w : LeafValueRow F) : F := (1 - w.flag1) * (1 - w.flag2)

/-- `is_leaf_long = flag1 * (1 - flag2)`. -/
def isLeafLong (w : LeafValueRow F) : F := w.flag1 * (1 - w.flag2)

/-- `is_leaf_short = (1 - flag1) * flag2`. -/
def isLeafShort (w : LeafValueRow F) : F := (1 - w.flag1) * w.flag2

/-- `is_leaf_placeholder = is_placeholder_without_branch +
not(is_account_leaf_above) * is_modified_node_empty` (`leaf_value.rs` lines
170-171). -/
def isLeafPlaceholder (w : LeafValueRow F) : F :=
  w.isPlaceholderWithoutBranch + (1 - w.isAccountLeafAbove) * w.isModifiedNodeEmpty

/-- `short_remainder = s_rlp1_prev - 192 - s_rlp2_prev + 128 - 1`
(`leaf_value.rs` line 232). -/
def shortRemainder (w : LeafValueRow F) : F := w.keyRlp1 - 192 - w.keyRlp2 + 128 - 1

/-- `long_remainder = s_rlp2_prev - s_bytes0_prev + 128 - 1`
(`leaf_value.rs` line 233). -/
def longRemainder (w : LeafValueRow F) : F := w.keyRlp2 - w.keyBytes0 + 128 - 1

/-- `long_value_len = s_rlp2_cur - 128 + 1 + 1` (`leaf_value.rs` line 270). -/
def longValueLen (w : LeafValueRow F) : F := w.sRlp2 - 128 + 1 + 1

/-- The RLP self-consistency constraints of the leaf value gate
(`leaf_value.rs` lines 231-300): each arm of the key-shape match, under the
value-shape condition and the not-placeholder condition. -/
def leafValueRlpGate (w : LeafValueRow F) : Prop :=
  (1 - isLeafPlaceholder w) * w.isShort * isLeafShort w * (shortRemainder w - 1) = 0 ∧
  (1 - isLeafPlaceholder w) * w.isShort * (hasNoNibble w + hasOneNibble w)
      * (w.keyRlp1 - 194) = 0 ∧
  (1 - isLeafPlaceholder w) * (1 - w.isShort) * isLeafShort w
      * (shortRemainder w - longValueLen w) = 0 ∧
  (1 - isLeafPlaceholder w) * (1 - w.isShort) * isLeafLong w
      * (longRemainder w - longValueLen w) = 0 ∧
  (1 - isLeafPlaceholder w) * (1 - w.isShort) * (hasNoNibble w + hasOneNibble w)
      * (w.keyRlp1 - (192 + 1 + longValueLen w)) = 0

/-- Claim C5 (amended): for an accepted leaf key-row/value-row pair that is
not a leaf placeholder, in every combination of key shape with value shape
that the gate constrains (all except key-long with value-short, which the code
leaves unconstrained as impossible: a key of at most 32 bytes together with a
1-byte value never exceeds 55 bytes) the declared RLP lengths are
consistent: key-short/value-short forces `short_remainder = 1` (that is,
`s_rlp1_prev - 192 - (s_rlp2_prev - 128) - 1 - 1 = 0`), last-level or
one-nibble with value-short forces the key row's first byte to be 194,
key-short/value-long forces `short_remainder = long_value_len`,
key-long/value-long forces `long_remainder = long_value_len`, and last-level
or one-nibble with value-long forces `s_rlp1_prev = 192 + 1 + long_value_len`. -/
theorem leafValueRlpConsistent (w : LeafValueRow F)
    (hg : leafValueRlpGate w) (hpl : isLeafPlaceholder w = 0) :
    (w.isShort = 1 → w.flag1 = 0 → w.flag2 = 1 → shortRemainder w = 1) ∧
    (w.isShort = 1 → w.flag1 = 1 → w.flag2 = 1 → w.keyRlp1 = 194) ∧
    (w.isShort = 1 → w.flag1 = 0 → w.flag2 = 0 → w.keyRlp1 = 194) ∧
    (w.isShort = 0 → w.flag1 = 0 → w.flag2 = 1 →
      shortRemainder w = longValueLen w) ∧
    (w.isShort = 0 → w.flag1 = 1 → w.flag2 = 0 →
      longRemainder w = longValueLen w) ∧
    (w.isShort = 0 → w.flag1 = 1 → w.flag2 = 1 →
      w.keyRlp1 = 192 + 1 + longValueLen w) ∧
    (w.isShort = 0 → w.flag1 = 0 → w.flag2 = 0 →
      w.keyRlp1 = 192 + 1 + longValueLen w) := by
  obtain ⟨h1, h2, h3, h4, h5⟩ := hg
  rw [hpl] at h1 h2 h3 h4 h5
  refine ⟨?_, ?_, ?_, ?_, ?_, ?_, ?_⟩ <;> intro hs hf1 hf2
  · rw [hs, isLeafShort, hf1, hf2] at h1
    linear_combination h1
  · rw [hs, hasNoNibble, hasOneNibble, hf1, hf2] at h2
    linear_combination h2
  · rw [hs, hasNoNibble, hasOneNibble, hf1, hf2] at h2
    linear_combination h2
  · rw [hs, isLeafShort, hf1, hf2] at h3
    linear_combination h3
  · rw [hs, isLeafLong, hf1, hf2] at h4
    linear_combination h4
  · rw [hs, hasNoNibble, hasOneNibble, hf1, hf2] at h5
    linear_combination h5
  · rw [hs, hasNoNibble, hasOneNibble, hf1, hf2] at h5
    linear_combination h5

/-- The parent-linkage constraints of the leaf value gate (`leaf_value.rs`
lines 321-336): on a non-first-level row below a non-placeholder branch whose
modified child is non-empty, either the leaf is not hashed and its RLC must
equal the recorded modified-child value, or a Keccak lookup of
`(leaf_rlc, leaf_len, modified_child_rlc)` is issued. -/
def leafValueParentGate (w : LeafValueRow F) (T : Set (F × F × F)) : Prop :=
  (1 - w.isAccountLeafAbove) * w.notFirstLevel * (1 - w.isModifiedNodeEmpty)
      * (1 - w.branchIsPlaceholder) * w.notHashed
      * (w.accSRlc - w.modNodeHashRlcCur) = 0 ∧
  condKeccak
    ((1 - w.isAccountLeafAbove) * w.notFirstLevel * (1 - w.isModifiedNodeEmpty)
      * (1 - w.branchIsPlaceholder) * (1 - w.notHashed))
    (w.accSRlc, w.leafLen, w.modNodeHashRlcCur) T

/-- Claim C3: for an accepted non-first-level storage-leaf value row whose
parent branch is not a placeholder and whose modified child is non-empty: when
the leaf is shorter than 32 bytes (the `not_hashed` cell is set) its full RLC
equals the parent's recorded modified-child value directly and the Keccak
lookup is disabled (its selector product is 0); otherwise the triple
`(leaf_rlc, leaf_len, modified_child_rlc)` must be in the Keccak table. -/
theorem leafValueParentLink (w : LeafValueRow F) (T : Set (F × F × F))
    (hg : leafValueParentGate w T) (ha : w.isAccountLeafAbove = 0)
    (hn : w.notFirstLevel = 1) (he : w.isModifiedNodeEmpty = 0)
    (hb : w.branchIsPlaceholder = 0) :
    (w.notHashed = 1 → w.accSRlc = w.modNodeHashRlcCur ∧
      (1 - w.isAccountLeafAbove) * w.notFirstLevel * (1 - w.isModifiedNodeEmpty)
        * (1 - w.branchIsPlaceholder) * (1 - w.notHashed) = 0) ∧
    (w.notHashed = 0 → (w.accSRlc, w.leafLen, w.modNodeHashRlcCur) ∈ T) := by
  obtain ⟨h1, h2⟩ := hg
  constructor
  · intro hh
    rw [ha, hn, he, hb, hh] at h1 ⊢
    refine ⟨by linear_combination h1, by ring⟩
  · intro hh
    rcases h2 with h | h
    · rw [ha, hn, he, hb, hh] at h
      norm_num at h
    · exact h.2

/-- `keccak(RLP(empty list))`, the hash of an empty trie (`leaf_value.rs`
lines 312-315). -/
def emptyTrieHash : List ℕ :=
  [86, 232, 31, 23, 27, 204, 85, 166, 255, 131, 69, 230, 146, 192, 248, 110, 91,
   72, 224, 27, 153, 108, 173, 192, 1, 98, 47, 181, 227, 99, 180, 33]

/-- The empty-trie constraints of the leaf value gate (`leaf_value.rs` lines
304-320): when the storage leaf sits directly under the account leaf and is a
placeholder, every storage-root byte recorded in the account leaf must equal
the corresponding byte of `keccak(RLP(empty list))`. -/
def leafValueEmptyTrieGate (w : LeafValueRow F) : Prop :=
  ∀ i < 32, w.isAccountLeafAbove * w.isPlaceholderWithoutBranch
    * (w.storageRootBytes i - ((emptyTrieHash.getD i 0 : ℕ) : F)) = 0

/-- Claim C6: in every accepted witness where the storage leaf sits directly
under an account leaf and is a placeholder, the 32 storage-root bytes recorded
in the account leaf equal, byte for byte, the constant
`keccak(RLP(empty list)) = [86, 232, ..., 180, 33]`. -/
theorem leafValueEmptyTrieRoot (w : LeafValueRow F)
    (hg : leafValueEmptyTrieGate w) (ha : w.isAccountLeafAbove = 1)
    (hp : w.isPlaceholderWithoutBranch = 1) :
    ∀ i < 32, w.storageRootBytes i = ((emptyTrieHash.getD i 0 : ℕ) : F) := by
  intro i hi
  have h := hg i hi
  rw [ha, hp] at h
  linear_combination h

/-! ## Drifted account leaf gate
(`zkevm-circuits/src/mpt_circuit/account_leaf/account_leaf_key_in_added_branch.rs`) -/

/-- `rlc::expr(values, mults)` (`evm_circuit/util/rlc`, not under `src/`):
`values[0] + values[1] * mults[0] + values[2] * mults[1] + ...`. -/
def rlcExpr (vals mults : List F) : F :=
  match vals with
  | [] => 0
  | v :: vs => v + ((vs.zip mults).map fun p => p.1 * p.2).sum

/-- The powers-of-randomness vector (`r` / `extend_rand(r)` in the source):
entry `i` is `r ^ (i + 1)`. -/
def powList (r : F) (n : ℕ) : List F := (List.range n).map fun i => r ^ (i + 1)

/-- Modelled from the spec: `accumulate_rand` (`mpt_circuit/helpers.rs`, not
under `src/`) turns the per-field multiplier jumps into cumulative products, so
each field is scaled by the multiplier power accumulated over the preceding
fields' lengths. -/
def accumulateRand : List F → List F
  | [] => []
  | m :: ms => m :: (accumulateRand ms).map fun x => m * x

/-- The cells of the pre-drift account-leaf rows of one proof side (`S` or
`C`) read by the second half of `AccountLeafKeyInAddedBranchConfig::configure`
(`account_leaf_key_in_added_branch.rs` lines 261-317): the nonce/balance row
cells, the storage-codehash row cells, the long-value flags from the leaf key
row, and the modified-child hash RLC recorded in the placeholder branch. -/
structure DriftedSide (F : Type) where
  multDiffNonce : F
  sRlp1Nonce : F
  sRlp2Nonce : F
  cRlp1Nonce : F
  cRlp2Nonce : F
  sBytes0Nonce : F
  cBytes0Nonce : F
  sRlp2Storage : F
  cRlp2Storage : F
  multDiffBalance : F
  storageRootStored : F
  codehashStored : F
  isNonceLong : F
  isBalanceLong : F
  nonceStored : F
  balanceStored : F
  modNodeHashRlc : F

/-- The drifted account-leaf row (`ACCOUNT_DRIFTED_LEAF`) together with the
cells of other rows read by the gate: the row's byte cells, the placeholder
flags and `is_c16`/`is_c1` selectors of the branch init row, the
extension-node indicators, the key accumulator of the branch (or extension
node) above the placeholder branch, the stored key RLCs of the pre-drift `S`
and `C` account-leaf key rows, `driftedPos`, the stored intermediate leaf RLC
and multiplier of the drifted row, and the per-side pre-drift field cells. -/
structure DriftedRow (F : Type) where
  qEnable : F
  sRlp1 : F
  sRlp2 : F
  sBytes : ℕ → F
  cRlp1 : F
  cRlp2 : F
  isBranchSPlaceholder : F
  isBranchCPlaceholder : F
  isExtNode : F
  isOneNibbleExt : F
  isC16 : F
  isC1 : F
  notFirstLevelAtBranchInit : F
  keyRlcExt : F
  keyRlcBranchAbove : F
  keyMultBranchAbove : F
  multDiffExt : F
  leafKeySRlc : F
  leafKeyCRlc : F
  driftedPos : F
  accSRlc : F
  accSMult : F
  sideS : DriftedSide F
  sideC : DriftedSide F

/-- `key_rlc_cur` (`account_leaf_key_in_added_branch.rs` lines 174-180): the
key accumulator right before `drifted_pos` is added, taken from the extension
node if there is one, from the branch above the placeholder branch otherwise
(0 when the placeholder branch is in the first level);
`is_branch_placeholder_in_first_level = 1 - not_first_level`. -/
def keyRlcCurDrifted (w : DriftedRow F) : F :=
  w.isExtNode * w.keyRlcExt
    + (1 - w.isExtNode) * (w.notFirstLevelAtBranchInit * w.keyRlcBranchAbove)

/-- `branch_above_placeholder_mult` (lines 190-195): 1 in the first level,
otherwise the key multiplier of the branch above the placeholder branch. -/
def branchAbovePlaceholderMult (w : DriftedRow F) : F :=
  (1 - w.notFirstLevelAtBranchInit) * 1
    + w.notFirstLevelAtBranchInit * w.keyMultBranchAbove

/-- `key_rlc_mult` (lines 196-212): the multiplier for the drifted leaf's key
bytes; when the ancestor is an extension node the extension-node nibble
multiplier (`mult_diff`, or `r` / 1 for a one-nibble extension) is applied. -/
def keyRlcMultDrifted (w : DriftedRow F) (r : F) : F :=
  branchAbovePlaceholderMult w *
    (w.isExtNode * (w.isOneNibbleExt * (w.isC1 * 1 + (1 - w.isC1) * r)
        + (1 - w.isOneNibbleExt) * w.multDiffExt)
      + (1 - w.isExtNode) * 1)

/-- `drifted_pos_mult = key_rlc_mult * 16 * is_c16 + key_rlc_mult * is_c1`
(line 222). -/
def driftedPosMult (w : DriftedRow F) (r : F) : F :=
  keyRlcMultDrifted w r * 16 * w.isC16 + keyRlcMultDrifted w r * w.isC1

/-- The value list of the drifted leaf's remaining key bytes (line 237):
entries `[3..36]` of `s_main.rlp_bytes() ++ c_main.rlp_bytes()`, each scaled by
`key_rlc_mult`, the first one replaced by `(byte - 48) * is_c16`. -/
def driftedKeyVals (w : DriftedRow F) (r : F) : List F :=
  (keyRlcMultDrifted w r * ((w.sBytes 1 - 48) * w.isC16))
    :: (((List.range 30).map fun i => keyRlcMultDrifted w r * w.sBytes (i + 2))
      ++ [keyRlcMultDrifted w r * w.cRlp1, keyRlcMultDrifted w r * w.cRlp2])

/-- The recomputed key RLC of the drifted leaf (line 236), as a function of
the branch position: `key_rlc_cur + pos * drifted_pos_mult +
rlc(remaining key bytes)`. -/
def driftedKeyRlcAt (w : DriftedRow F) (r : F) (pos : F) : F :=
  keyRlcCurDrifted w + pos * driftedPosMult w r
    + rlcExpr (driftedKeyVals w r) (powList r 64)

/-- The first 36 byte cells of the drifted leaf row, in row order
(line 121). -/
def driftedRowBytes (w : DriftedRow F) : List F :=
  [w.sRlp1, w.sRlp2] ++ ((List.range 32).map fun i => w.sBytes i)
    ++ [w.cRlp1, w.cRlp2]

/-- The intermediate drifted-leaf RLC over RLP meta and key bytes
(lines 120-123). -/
def driftedLeafKeyRlc (w : DriftedRow F) (r : F) : F :=
  rlcExpr (driftedRowBytes w) (powList r 64)

/-- The key-preservation constraints of the drifted-leaf gate
(`account_leaf_key_in_added_branch.rs` lines 94-246), all under
`q_enable * (is_branch_s_placeholder + is_branch_c_placeholder)`. -/
def accountDriftedKeyGate (w : DriftedRow F) (r : F) : Prop :=
  let pl := w.isBranchSPlaceholder + w.isBranchCPlaceholder
  w.qEnable * pl * (w.sRlp1 - 248) = 0 ∧
  w.qEnable * pl * (w.accSRlc - driftedLeafKeyRlc w r) = 0 ∧
  w.qEnable * pl * w.isC1 * (w.sBytes 1 - 32) = 0 ∧
  w.qEnable * pl * w.isBranchSPlaceholder
      * (w.leafKeySRlc - driftedKeyRlcAt w r w.driftedPos) = 0 ∧
  w.qEnable * pl * w.isBranchCPlaceholder
      * (w.leafKeyCRlc - driftedKeyRlcAt w r w.driftedPos) = 0

/-- Claim C4: when the branch above the drifted leaf is a placeholder in the
`S` (respectively `C`) trie, the key RLC recomputed from the accumulator of
the branch above the placeholder, plus `drifted_pos` scaled by `16 * mult` or
`1 * mult` according to the `is_c16` / `is_c1` selector (with the
extension-node nibble multiplier applied when the ancestor is an extension
node), plus the drifted leaf's remaining key bytes, equals the original `S`
(respectively `C`) leaf's stored key RLC; and when the position multiplier is
non-zero any other value of `drifted_pos` is rejected. -/
theorem accountDriftedKeyPreserved (w : DriftedRow F) (r : F)
    (hg : accountDriftedKeyGate w r) (hq : w.qEnable = 1)
    (hpl : (w.isBranchSPlaceholder = 1 ∧ w.isBranchCPlaceholder = 0) ∨
           (w.isBranchSPlaceholder = 0 ∧ w.isBranchCPlaceholder = 1)) :
    (w.isBranchSPlaceholder = 1 →
      w.leafKeySRlc = driftedKeyRlcAt w r w.driftedPos ∧
      ∀ p : F, driftedPosMult w r ≠ 0 →
        driftedKeyRlcAt w r p = w.leafKeySRlc → p = w.driftedPos) ∧
    (w.isBranchCPlaceholder = 1 →
      w.leafKeyCRlc = driftedKeyRlcAt w r w.driftedPos ∧
      ∀ p : F, driftedPosMult w r ≠ 0 →
        driftedKeyRlcAt w r p = w.leafKeyCRlc → p = w.driftedPos) := by
  obtain ⟨-, -, -, h4, h5⟩ := hg
  constructor
  · intro hs
    rcases hpl with ⟨h1, hc⟩ | ⟨h1, hc⟩
    · rw [hq, hs, hc] at h4
      have heq : w.leafKeySRlc = driftedKeyRlcAt w r w.driftedPos := by
        linear_combination h4
      refine ⟨heq, fun p hm hp => ?_⟩
      have hz : (p - w.driftedPos) * driftedPosMult w r = 0 := by
        have hd : driftedKeyRlcAt w r p - driftedKeyRlcAt w r w.driftedPos = 0 := by
          rw [hp, heq]; ring
        rw [driftedKeyRlcAt, driftedKeyRlcAt] at hd
        linear_combination hd
      rcases mul_eq_zero.mp hz with h | h
      · linear_combination h
      · exact absurd h hm
    · rw [hs] at h1
      exact absurd h1 one_ne_zero
  · intro hs
    rcases hpl with ⟨h1, hc⟩ | ⟨hc, h1⟩
    · rw [hs] at hc
      exact absurd hc one_ne_zero
    · rw [hq, hs, hc] at h5
      have heq : w.leafKeyCRlc = driftedKeyRlcAt w r w.driftedPos := by
        linear_combination h5
      refine ⟨heq, fun p hm hp => ?_⟩
      have hz : (p - w.driftedPos) * driftedPosMult w r = 0 := by
        have hd : driftedKeyRlcAt w r p - driftedKeyRlcAt w r w.driftedPos = 0 := by
          rw [hp, heq]; ring
        rw [driftedKeyRlcAt, driftedKeyRlcAt] at hd
        linear_combination hd
      rcases mul_eq_zero.mp hz with h | h
      · linear_combination h
      · exact absurd h hm

/-- The full drifted-leaf RLC of one proof side (`account_leaf_key_in_added_branch.rs`
lines 264-311): the intermediate RLC after the key, plus the nonce RLP bytes,
nonce, balance, storage root and codehash fields, each scaled by the stored
row multiplier and by the multiplier power accumulated over the preceding
fields (`r^1..r^4` for the four nonce RLP bytes, then cumulative products of
`mult_diff_nonce`, `mult_diff_balance`, `r`, `r^32`, `r`). -/
def driftedSideRlc (w : DriftedRow F) (s : DriftedSide F) (r : F) : F :=
  w.accSRlc + rlcExpr
    ([s.sRlp1Nonce, s.sRlp2Nonce, s.cRlp1Nonce, s.cRlp2Nonce,
      s.isNonceLong * (s.sBytes0Nonce + s.nonceStored * r)
        + (1 - s.isNonceLong) * s.nonceStored,
      s.isBalanceLong * (s.cBytes0Nonce + s.balanceStored * r)
        + (1 - s.isBalanceLong) * s.balanceStored,
      s.sRlp2Storage, s.storageRootStored, s.cRlp2Storage,
      s.codehashStored].map fun v => v * w.accSMult)
    (powList r 4 ++ accumulateRand [s.multDiffNonce, s.multDiffBalance, r, r ^ 32, r])

/-- The Keccak-lookup constraints of the drifted-leaf gate
(`account_leaf_key_in_added_branch.rs` lines 252-323): for each proof side,
under `q_enable * is_branch_placeholder(side)`, the triple
`(full drifted-leaf RLC, s_rlp2 + 1 + 1, modified-child hash RLC of the
placeholder branch)` is looked up in the Keccak table. -/
def accountDriftedHashGate (w : DriftedRow F) (r : F) (T : Set (F × F × F)) : Prop :=
  condKeccak (w.qEnable * w.isBranchSPlaceholder)
    (driftedSideRlc w w.sideS r, w.sRlp2 + 1 + 1, w.sideS.modNodeHashRlc) T ∧
  condKeccak (w.qEnable * w.isBranchCPlaceholder)
    (driftedSideRlc w w.sideC r, w.sRlp2 + 1 + 1, w.sideC.modNodeHashRlc) T

/-- Claim C7: whenever the branch above the drifted leaf is a placeholder in
the `S` (respectively `C`) trie, the full drifted-leaf RLC (RLP meta and key
bytes of the drifted row plus the inherited nonce, balance, storage-root and
codehash fields, each scaled by the accumulated multiplier powers) must appear
in the Keccak table paired with the leaf byte length `s_rlp2 + 2` and with the
placeholder branch's stored modified-child hash RLC. -/
theorem accountDriftedHashInParent (w : DriftedRow F) (r : F)
    (T : Set (F × F × F)) (hg : accountDriftedHashGate w r T)
    (hq : w.qEnable = 1) :
    (w.isBranchSPlaceholder = 1 →
      (driftedSideRlc w w.sideS r, w.sRlp2 + 1 + 1, w.sideS.modNodeHashRlc) ∈ T) ∧
    (w.isBranchCPlaceholder = 1 →
      (driftedSideRlc w w.sideC r, w.sRlp2 + 1 + 1, w.sideC.modNodeHashRlc) ∈ T) := by
  obtain ⟨h1, h2⟩ := hg
  constructor
  · intro hs
    rcases h1 with h | h
    · rw [hq, hs, one_mul] at h
      exact absurd h one_ne_zero
    · exact h.2
  · intro hs
    rcases h2 with h | h
    · rw [hq, hs, one_mul] at h
      exact absurd h one_ne_zero
    · exact h.2

/-! ### Concrete leaf-value rows used as witnesses -/

/-- A short-key/short-value row pair (spec scenario 6): key row
`[226, 160, ...]`, 1-byte value. -/
def witC5 : LeafValueRow Fp :=
  { sRlp1 := 1, sRlp2 := 0, sBytes := fun _ => 0, isLong := 0, isShort := 1
    flag1 := 0, flag2 := 1, keyRlp1 := 226, keyRlp2 := 160, keyBytes0 := 0
    notFirstLevel := 1, isModifiedNodeEmpty := 0, isPlaceholderWithoutBranch := 0
    isAccountLeafAbove := 0, isAccountLeafAboveBranch := 0, modNodeHashRlcCur := 0
    branchIsPlaceholder := 0, notHashed := 0, accSRlc := 0, leafLen := 0
    storageRootBytes := fun _ => 0 }

theorem leafValueRlpConsistentWitness :
    leafValueRlpGate witC5 ∧ isLeafPlaceholder witC5 = 0 ∧ shortRemainder witC5 = 1 :=
  have hg : leafValueRlpGate witC5 := by unfold leafValueRlpGate; decide
  have hpl : isLeafPlaceholder witC5 = 0 := by decide
  ⟨hg, hpl, (leafValueRlpConsistent witC5 hg hpl).1 rfl rfl rfl⟩

/-- A placeholder short-key/short-value pair whose declared lengths are
inconsistent (`short_remainder = 226 - 192 - 161 + 128 - 1 = 0`, not 1) yet
which satisfies every RLP-consistency constraint of the leaf value gate,
because all of them carry the factor `1 - is_leaf_placeholder`. -/
def cexC5a : LeafValueRow Fp :=
  { sRlp1 := 1, sRlp2 := 0, sBytes := fun _ => 0, isLong := 0, isShort := 1
    flag1 := 0, flag2 := 1, keyRlp1 := 226, keyRlp2 := 161, keyBytes0 := 0
    notFirstLevel := 1, isModifiedNodeEmpty := 0, isPlaceholderWithoutBranch := 1
    isAccountLeafAbove := 0, isAccountLeafAboveBranch := 0, modNodeHashRlcCur := 0
    branchIsPlaceholder := 0, notHashed := 0, accSRlc := 0, leafLen := 0
    storageRootBytes := fun _ => 0 }

/-- A non-placeholder long-key/short-value pair whose declared lengths are
inconsistent (`long_remainder = 160 - 100 + 128 - 1 = 187`, not the value
length 1) yet which satisfies every RLP-consistency constraint of the leaf
value gate, because no constraint covers the key-long/value-short
combination. -/
def cexC5b : LeafValueRow Fp :=
  { sRlp1 := 1, sRlp2 := 0, sBytes := fun _ => 0, isLong := 0, isShort := 1
    flag1 := 1, flag2 := 0, keyRlp1 := 248, keyRlp2 := 160, keyBytes0 := 100
    notFirstLevel := 1, isModifiedNodeEmpty := 0, isPlaceholderWithoutBranch := 0
    isAccountLeafAbove := 0, isAccountLeafAboveBranch := 0, modNodeHashRlcCur := 0
    branchIsPlaceholder := 0, notHashed := 0, accSRlc := 0, leafLen := 0
    storageRootBytes := fun _ => 0 }

/-- Claim C5, counterexample to the claim as stated: the RLP length
consistency does not hold for every accepted key-row/value-row pair in every
shape combination.  First, a placeholder short/short pair with
`short_remainder = 0` is accepted (the code exempts placeholder leaves).
Second, a non-placeholder key-long/value-short pair with
`long_remainder = 187`, far from the 1-byte value length, is accepted (no
constraint covers that combination). -/
theorem leafValueRlpConsistentCounterexample :
    (leafValueRlpGate cexC5a ∧ cexC5a.isShort = 1 ∧ cexC5a.flag1 = 0 ∧
      cexC5a.flag2 = 1 ∧ ¬ shortRemainder cexC5a = 1) ∧
    (leafValueRlpGate cexC5b ∧ isLeafPlaceholder cexC5b = 0 ∧
      cexC5b.isShort = 1 ∧ cexC5b.flag1 = 1 ∧ cexC5b.flag2 = 0 ∧
      ¬ longRemainder cexC5b = 1) :=
  ⟨⟨by unfold leafValueRlpGate; decide, rfl, rfl, rfl, by decide⟩,
   ⟨by unfold leafValueRlpGate; decide, by decide, rfl, rfl, rfl, by decide⟩⟩

/-- A non-hashed (shorter than 32 bytes) leaf value row whose RLC equals the
recorded modified-child value of the parent branch. -/
def witC3 : LeafValueRow Fp :=
  { sRlp1 := 1, sRlp2 := 0, sBytes := fun _ => 0, isLong := 0, isShort := 1
    flag1 := 0, flag2 := 1, keyRlp1 := 226, keyRlp2 := 160, keyBytes0 := 0
    notFirstLevel := 1, isModifiedNodeEmpty := 0, isPlaceholderWithoutBranch := 0
    isAccountLeafAbove := 0, isAccountLeafAboveBranch := 0, modNodeHashRlcCur := 7
    branchIsPlaceholder := 0, notHashed := 1, accSRlc := 7, leafLen := 3
    storageRootBytes := fun _ => 0 }

theorem leafValueParentLinkWitness :
    leafValueParentGate witC3 (∅ : Set (Fp × Fp × Fp)) ∧
    witC3.accSRlc = witC3.modNodeHashRlcCur :=
  have hg : leafValueParentGate witC3 (∅ : Set (Fp × Fp × Fp)) :=
    ⟨by decide, Or.inl (by decide)⟩
  ⟨hg, ((leafValueParentLink witC3 ∅ hg rfl rfl rfl rfl).1 rfl).1⟩

/-- A placeholder storage leaf directly under an account leaf, with the
empty-trie hash recorded as storage root. -/
def witC6 : LeafValueRow Fp :=
  { sRlp1 := 0, sRlp2 := 0, sBytes := fun _ => 0, isLong := 0, isShort := 1
    flag1 := 0, flag2 := 1, keyRlp1 := 226, keyRlp2 := 160, keyBytes0 := 0
    notFirstLevel := 1, isModifiedNodeEmpty := 0, isPlaceholderWithoutBranch := 1
    isAccountLeafAbove := 1, isAccountLeafAboveBranch := 0, modNodeHashRlcCur := 0
    branchIsPlaceholder := 0, notHashed := 0, accSRlc := 0, leafLen := 0
    storageRootBytes := fun i => ((emptyTrieHash.getD i 0 : ℕ) : Fp) }

theorem leafValueEmptyTrieRootWitness :
    leafValueEmptyTrieGate witC6 ∧
    ∀ i < 32, witC6.storageRootBytes i = ((emptyTrieHash.getD i 0 : ℕ) : Fp) :=
  have hg : leafValueEmptyTrieGate witC6 := by
    unfold leafValueEmptyTrieGate; decide
  ⟨hg, leafValueEmptyTrieRoot witC6 hg rfl rfl⟩

/-! ### Concrete drifted-leaf rows used as witnesses -/

/-- Pre-drift side cells that are all zero. -/
def zeroSide : DriftedSide Fp :=
  { multDiffNonce := 0, sRlp1Nonce := 0, sRlp2Nonce := 0, cRlp1Nonce := 0
    cRlp2Nonce := 0, sBytes0Nonce := 0, cBytes0Nonce := 0, sRlp2Storage := 0
    cRlp2Storage := 0, multDiffBalance := 0, storageRootStored := 0
    codehashStored := 0, isNonceLong := 0, isBalanceLong := 0, nonceStored := 0
    balanceStored := 0, modNodeHashRlc := 0 }

/-- A drifted account-leaf row under an `S`-side placeholder branch in the
first level, with `drifted_pos = 5` (spec scenario 10). -/
def witC4 : DriftedRow Fp :=
  { qEnable := 1, sRlp1 := 248, sRlp2 := 0, sBytes := fun _ => 0, cRlp1 := 0
    cRlp2 := 0, isBranchSPlaceholder := 1, isBranchCPlaceholder := 0
    isExtNode := 0, isOneNibbleExt := 0, isC16 := 0, isC1 := 0
    notFirstLevelAtBranchInit := 0, keyRlcExt := 0, keyRlcBranchAbove := 0
    keyMultBranchAbove := 1, multDiffExt := 0, leafKeySRlc := 0
    leafKeyCRlc := 0, driftedPos := 5, accSRlc := 248, accSMult := 0
    sideS := zeroSide, sideC := zeroSide }

theorem accountDriftedKeyPreservedWitness :
    accountDriftedKeyGate witC4 2 ∧
    witC4.leafKeySRlc = driftedKeyRlcAt witC4 2 witC4.driftedPos :=
  have hg : accountDriftedKeyGate witC4 2 := by
    unfold accountDriftedKeyGate; decide
  ⟨hg, ((accountDriftedKeyPreserved witC4 2 hg rfl (Or.inl ⟨rfl, rfl⟩)).1 rfl).1⟩

/-- A drifted account-leaf row under an `S`-side placeholder branch, with the
matching Keccak triple in the table. -/
def witC7 : DriftedRow Fp := witC4

theorem accountDriftedHashInParentWitness :
    accountDriftedHashGate witC7 2
        ({(driftedSideRlc witC7 witC7.sideS 2, witC7.sRlp2 + 1 + 1,
           witC7.sideS.modNodeHashRlc)} : Set (Fp × Fp × Fp)) ∧
    (driftedSideRlc witC7 witC7.sideS 2, witC7.sRlp2 + 1 + 1,
      witC7.sideS.modNodeHashRlc) ∈
      ({(driftedSideRlc witC7 witC7.sideS 2, witC7.sRlp2 + 1 + 1,
         witC7.sideS.modNodeHashRlc)} : Set (Fp × Fp × Fp)) :=
  have hg : accountDriftedHashGate witC7 2
      ({(driftedSideRlc witC7 witC7.sideS 2, witC7.sRlp2 + 1 + 1,
         witC7.sideS.modNodeHashRlc)} : Set (Fp × Fp × Fp)) :=
    ⟨Or.inr ⟨by decide, rfl⟩, Or.inl (by decide)⟩
  ⟨hg, (accountDriftedHashInParent witC7 2 _ hg rfl).1 rfl⟩

end MPT
